import Mathlib

/-!
Verification development for the HubitatRulesMCP rule/automation engine.

Shallow embedding of the core components:
  * `rules/condition.py` — condition variants (attribute comparisons, boolean
    combinators) with Python value semantics (`==`, ordering, the
    `_cast_value` coercion).
  * `rules/engine.py` — the condition-graph engine: registry keyed by
    `condition.identifier`, reverse dependency edges, device dispatch,
    propagation, post-propagation firing rules, add/remove.
  * `timing/timers.py` — the queued timer service as a small-step trace model.
  * `rules/handler.py` — the scheduled-rule supervisor loop and the
    active-rule index.

Python dicts are modelled as insertion-ordered association lists, Python sets
as insertion-ordered duplicate-free lists, Python exceptions as
`Except String`.  Asynchronous side effects of the engine (timer commands,
event notifications, `on_condition_event` invocations) are recorded in an
effect log so that theorems can talk about them.
-/

namespace HubitatRules

/-! ## Dictionary / set helpers (Python dict and set on association lists) -/

/-- Lookup in an insertion-ordered association list (Python `d[k]` / `k in d`). -/
def dictGet {α β : Type} [DecidableEq α] (k : α) : List (α × β) → Option β
  | [] => Option.none
  | (k', v) :: rest => if k = k' then some v else dictGet k rest

/-- Assignment `d[k] = v` on an insertion-ordered association list: replaces the
existing binding in place, otherwise appends (Python dict semantics). -/
def dictSet {α β : Type} [DecidableEq α] (k : α) (v : β) : List (α × β) → List (α × β)
  | [] => [(k, v)]
  | (k', v') :: rest => if k = k' then (k, v) :: rest else (k', v') :: dictSet k v rest

/-- Deletion `del d[k]` on an association list. -/
def dictDel {α β : Type} [DecidableEq α] (k : α) : List (α × β) → List (α × β)
  | [] => []
  | (k', v') :: rest => if k = k' then rest else (k', v') :: dictDel k rest

/-- Python `set.add`: append if not already present (insertion order kept). -/
def setAdd {α : Type} [DecidableEq α] (x : α) (l : List α) : List α :=
  if x ∈ l then l else l ++ [x]

/-- Python `set.discard`: remove the element if present. -/
def setDiscard {α : Type} [DecidableEq α] (x : α) (l : List α) : List α :=
  l.filter (fun y => y ≠ x)

@[simp] theorem dictGet_nil {α β : Type} [DecidableEq α] (k : α) :
    dictGet (β := β) k [] = Option.none := rfl

theorem dictGet_cons {α β : Type} [DecidableEq α] (k k' : α) (v : β) (rest : List (α × β)) :
    dictGet k ((k', v) :: rest) = if k = k' then some v else dictGet k rest := rfl

/-- Characterisation of lookup after assignment. -/
theorem dictGet_dictSet {α β : Type} [DecidableEq α] (k q : α) (v : β) (l : List (α × β)) :
    dictGet q (dictSet k v l) = if q = k then some v else dictGet q l := by
  induction l with
  | nil =>
    by_cases h : q = k <;> simp [dictSet, dictGet, h]
  | cons hd tl ih =>
    obtain ⟨k', v'⟩ := hd
    by_cases hk : k = k'
    · subst hk
      by_cases hq : q = k
      · subst hq; simp [dictSet, dictGet]
      · simp [dictSet, dictGet, hq]
    · by_cases hq : q = k'
      · subst hq
        have hqk : ¬q = k := fun h => hk h.symm
        simp [dictSet, hk, dictGet, hqk]
      · simp [dictSet, hk, dictGet, hq, ih]

/-! ## Attribute values (Python dynamically-typed wire values)

Device attribute values arrive as JSON and are dynamically typed in the
source.  The model covers `None`, booleans, integers and strings, with
Python's cross-type `==` (where `True == 1`) and Python ordering, which
raises `TypeError` on `None` or mixed string/number operands. -/

inductive AttrValue
  | none
  | bool (b : Bool)
  | int (n : Int)
  | str (s : String)
deriving DecidableEq, Repr

/-- Numeric view of a value: Python `bool` is a subtype of `int`. -/
def pyNum : AttrValue → Option Int
  | .bool b => some (if b then 1 else 0)
  | .int n => some n
  | _ => Option.none

/-- Python `==` between attribute values: numeric values compare numerically
(`True == 1`), strings compare as strings, `None == None`, everything else is
unequal (Python `==` across unrelated types returns `False`, it never raises). -/
def pyEq (l r : AttrValue) : Bool :=
  match pyNum l, pyNum r with
  | some m, some n => m = n
  | _, _ =>
    match l, r with
    | .none, .none => true
    | .str s, .str t => s = t
    | _, _ => false

/-- Python ordering comparison: defined between two numbers or two strings,
raises `TypeError` otherwise — in particular whenever either side is `None`. -/
def pyCmp (l r : AttrValue) : Except String Ordering :=
  match pyNum l, pyNum r with
  | some m, some n => .ok (compare m n)
  | _, _ =>
    match l, r with
    | .str s, .str t => .ok (compare s t)
    | _, _ => .error "TypeError: unsupported comparison"

/-- Python `str(value)` as used in identifier strings. -/
def pyStr : AttrValue → String
  | .none => "None"
  | .bool b => if b then "True" else "False"
  | .int n => toString n
  | .str s => s

/-- String values that `_cast_value` treats as `True`. -/
def truthyStrings : List String := ["true", "1", "yes", "on", "active", "open"]

/-- ASCII lower-casing of one character (device attribute strings are ASCII). -/
def asciiLowerChar (c : Char) : Char :=
  if 65 ≤ c.toNat ∧ c.toNat ≤ 90 then Char.ofNat (c.toNat + 32) else c

/-- Model of Python `str.lower()` over the attribute-value vocabulary
(character-wise ASCII lower-casing). -/
def pyLower (s : String) : String := String.mk (s.data.map asciiLowerChar)

/-- Model of `StaticDeviceAttributeCondition._cast_value`.

The source guards each branch with `isinstance(self._value_type, type(bool))`
(and the analogous tests for `int`, `float`, `str`).  `type(bool)` is `type`,
and `self._value_type` is always a class, so the *first* test is true for
every literal type and the boolean branch is always taken: strings are mapped
to the truthy-string check and any other non-`None` value goes through
`bool(value)`.  The `int`/`float`/`str` branches are dead code. -/
def cast_value (value : AttrValue) : AttrValue :=
  match value with
  | .none => .none
  | .str s => .bool (truthyStrings.contains (pyLower s))
  | .bool b => .bool b
  | .int n => .bool (n ≠ 0)

/-! ## Device events (`models/api.py` `HubitatDeviceEvent`)

The wire carries `device_id` as a string; the engine converts with
`int(event.device_id)` before using it, so the model stores the converted
integer directly. -/

structure HubitatDeviceEvent where
  deviceId : Int
  /-- the `attribute` field of the event (`attribute` is a Lean keyword) -/
  attrName : String
  value : AttrValue
deriving DecidableEq, Repr

/-! ## `StaticDeviceAttributeCondition` (`rules/condition.py`) -/

structure StaticCond where
  deviceId : Int
  attrName : String
  op : String
  /-- the literal `_value` the condition compares against -/
  value : AttrValue
  /-- the mutable `_device_value` field (starts as `None`) -/
  deviceValue : AttrValue
deriving DecidableEq, Repr

/-- Identifier string of a static attribute condition. -/
def static_identifier (c : StaticCond) : String :=
  let dev := toString c.deviceId
  let attr := c.attrName
  let op := c.op
  let v := pyStr c.value
  s!"device_condition(he_dev({dev}:{attr}) {op} {v})"

/-- Translation of `StaticDeviceAttributeCondition.evaluate` (lines 258-273):
`=` and `!=` use Python `==`; the four ordering operators compare
`_device_value` against `_value` directly, with no `None` guard, so they raise
`TypeError` when either side is `None`. -/
def static_evaluate (c : StaticCond) : Except String Bool :=
  match c.op with
  | "=" => .ok (pyEq c.deviceValue c.value)
  | "!=" => .ok (!pyEq c.deviceValue c.value)
  | ">" =>
    match pyCmp c.deviceValue c.value with
    | .ok o => .ok (o = Ordering.gt)
    | .error e => .error e
  | ">=" =>
    match pyCmp c.deviceValue c.value with
    | .ok o => .ok (o ≠ Ordering.lt)
    | .error e => .error e
  | "<" =>
    match pyCmp c.deviceValue c.value with
    | .ok o => .ok (o = Ordering.lt)
    | .error e => .error e
  | "<=" =>
    match pyCmp c.deviceValue c.value with
    | .ok o => .ok (o ≠ Ordering.gt)
    | .error e => .error e
  | _ => .error "ValueError: Unknown operator"

/-- Translation of `StaticDeviceAttributeCondition.on_device_event`: only the
attribute name is checked (the device id is assumed to match by dispatch);
the incoming value is passed through `_cast_value`. -/
def static_on_device_event (c : StaticCond) (e : HubitatDeviceEvent) : StaticCond :=
  if e.attrName = c.attrName then { c with deviceValue := cast_value e.value } else c

/-- Translation of `StaticDeviceAttributeCondition.initialize`: reads
`attrs[self._device_id][self._attr_name]` (a `KeyError` when missing), casts
it, then evaluates. -/
def static_init (c : StaticCond) (attrs : List (Int × List (String × AttrValue))) :
    Except String (StaticCond × Bool) :=
  match dictGet c.deviceId attrs with
  | Option.none => .error "KeyError: device"
  | some deviceAttrs =>
    match dictGet c.attrName deviceAttrs with
    | Option.none => .error "KeyError: attribute"
    | some v =>
      let c' := { c with deviceValue := cast_value v }
      match static_evaluate c' with
      | .ok b => .ok (c', b)
      | .error e => .error e

/-! ## `DynamicDeviceAttributeCondition` (`rules/condition.py`) -/

structure DynCond where
  leftDeviceId : Int
  leftAttrName : String
  op : String
  rightDeviceId : Int
  rightAttrName : String
  /-- mutable `_left_value` (starts as `None`) -/
  leftValue : AttrValue
  /-- mutable `_right_value` (starts as `None`) -/
  rightValue : AttrValue
deriving DecidableEq, Repr

/-- Identifier string of a dynamic attribute condition. -/
def dyn_identifier (c : DynCond) : String :=
  let ld := toString c.leftDeviceId
  let la := c.leftAttrName
  let op := c.op
  let rd := toString c.rightDeviceId
  let ra := c.rightAttrName
  s!"device_condition(he_dev({ld}:{la}) {op} he_dev({rd}:{ra}))"

/-- Translation of `DynamicDeviceAttributeCondition.evaluate` (lines 162-189):
the four ordering operators explicitly test both sides for `None` and return
`False` when either side is `None` ("ordering comparisons with None are
undefined"); `=` and `!=` use Python `==`. -/
def dyn_evaluate (c : DynCond) : Except String Bool :=
  match c.op with
  | "=" => .ok (pyEq c.leftValue c.rightValue)
  | "!=" => .ok (!pyEq c.leftValue c.rightValue)
  | ">" =>
    if c.leftValue ≠ AttrValue.none ∧ c.rightValue ≠ AttrValue.none then
      match pyCmp c.leftValue c.rightValue with
      | .ok o => .ok (o = Ordering.gt)
      | .error e => .error e
    else .ok false
  | ">=" =>
    if c.leftValue ≠ AttrValue.none ∧ c.rightValue ≠ AttrValue.none then
      match pyCmp c.leftValue c.rightValue with
      | .ok o => .ok (o ≠ Ordering.lt)
      | .error e => .error e
    else .ok false
  | "<" =>
    if c.leftValue ≠ AttrValue.none ∧ c.rightValue ≠ AttrValue.none then
      match pyCmp c.leftValue c.rightValue with
      | .ok o => .ok (o = Ordering.lt)
      | .error e => .error e
    else .ok false
  | "<=" =>
    if c.leftValue ≠ AttrValue.none ∧ c.rightValue ≠ AttrValue.none then
      match pyCmp c.leftValue c.rightValue with
      | .ok o => .ok (o ≠ Ordering.gt)
      | .error e => .error e
    else .ok false
  | _ => .error "ValueError: Unknown operator"

/-- Translation of `DynamicDeviceAttributeCondition.on_device_event`: the raw
event value (no cast) lands on the matching side. -/
def dyn_on_device_event (c : DynCond) (e : HubitatDeviceEvent) : DynCond :=
  if e.deviceId = c.leftDeviceId ∧ e.attrName = c.leftAttrName then
    { c with leftValue := e.value }
  else if e.deviceId = c.rightDeviceId ∧ e.attrName = c.rightAttrName then
    { c with rightValue := e.value }
  else c

/-- Translation of `DynamicDeviceAttributeCondition.initialize`: both sides are
read from the bulk attribute map (raw, no cast), then the condition is
evaluated. -/
def dyn_init (c : DynCond) (attrs : List (Int × List (String × AttrValue))) :
    Except String (DynCond × Bool) :=
  match dictGet c.leftDeviceId attrs with
  | Option.none => .error "KeyError: device"
  | some leftAttrs =>
    match dictGet c.leftAttrName leftAttrs with
    | Option.none => .error "KeyError: attribute"
    | some lv =>
      match dictGet c.rightDeviceId attrs with
      | Option.none => .error "KeyError: device"
      | some rightAttrs =>
        match dictGet c.rightAttrName rightAttrs with
        | Option.none => .error "KeyError: attribute"
        | some rv =>
          let c' := { c with leftValue := lv, rightValue := rv }
          match dyn_evaluate c' with
          | .ok b => .ok (c', b)
          | .error e => .error e

/-! ## `BooleanCondition` (`rules/condition.py`)

`BooleanCondition` stores `_conditions`, a dict keyed by the *identifier* of
each child, holding `(child, state)` pairs.  The child objects are referenced
by heap id in the model.  Crucially, `BooleanCondition` does not override
`on_condition_event` (nor does any other variant in `rules/condition.py`), so
the base-class no-op runs and the stored child states only ever change through
`initialize`. -/

structure BoolCond where
  op : String
  /-- the `_conditions` dict: child identifier → (child heap id, state) -/
  conds : List (String × Nat × Bool)
deriving DecidableEq, Repr

/-- Identifier of a boolean condition: child identifiers joined by the operator. -/
def bool_identifier (c : BoolCond) : String :=
  let inner := String.intercalate (" " ++ c.op ++ " ") (c.conds.map (·.1))
  "(" ++ inner ++ ")"

/-- Translation of `BooleanCondition.evaluate`: `and`/`or` fold the *stored*
child states; `not` reads the first stored state (an `IndexError` when the
dict is empty); unknown operators raise `ValueError`. -/
def bool_evaluate (c : BoolCond) : Except String Bool :=
  match c.op with
  | "and" => .ok (c.conds.all (fun p => p.2.2))
  | "or" => .ok (c.conds.any (fun p => p.2.2))
  | "not" =>
    match c.conds with
    | [] => .error "IndexError: list index out of range"
    | p :: _ => .ok (!p.2.2)
  | _ => .error "ValueError: Unknown operator"

/-- Helper for `BooleanCondition.initialize`: write each supplied child state
into the stored dict (a `KeyError` when a key is not a known child). -/
def bool_init_fold : List (String × Bool) → List (String × Nat × Bool) →
    Except String (List (String × Nat × Bool))
  | [], acc => .ok acc
  | (k, st) :: rest, acc =>
    match dictGet k acc with
    | Option.none => .error "KeyError: condition"
    | some (cid, _) => bool_init_fold rest (dictSet k (cid, st) acc)

/-- Translation of `BooleanCondition.initialize`: absorb the supplied child
states, then evaluate. -/
def bool_init (c : BoolCond) (conds : List (String × Bool)) :
    Except String (BoolCond × Bool) :=
  match bool_init_fold conds c.conds with
  | .error e => .error e
  | .ok conds' =>
    let c' := { c with conds := conds' }
    match bool_evaluate c' with
    | .ok b => .ok (c', b)
    | .error e => .error e

/-! ## Condition objects and the heap

Python condition instances are mutable objects; the model stores them in a
heap keyed by object id.  `timeout` and `duration` are instance attributes on
`AbstractCondition` and can accompany any variant. -/

inductive CondObj
  | staticAttr (c : StaticCond)
  | dynAttr (c : DynCond)
  | boolean (c : BoolCond)
deriving DecidableEq, Repr

structure CondNode where
  obj : CondObj
  timeout : Option Nat
  duration : Option Nat
deriving DecidableEq, Repr

abbrev Heap := List (Nat × CondNode)

/-- Placeholder node used for dangling heap ids; faithful runs never touch it
(a dangling id would be a dangling object reference in Python). -/
def junkNode : CondNode := ⟨.boolean ⟨"or", []⟩, Option.none, Option.none⟩

def heap_node (h : Heap) (objId : Nat) : CondNode := (dictGet objId h).getD junkNode

def heapSet (h : Heap) (objId : Nat) (n : CondNode) : Heap := dictSet objId n h

/-- Dynamic dispatch of the `identifier` property. -/
def cond_identifier : CondObj → String
  | .staticAttr c => static_identifier c
  | .dynAttr c => dyn_identifier c
  | .boolean c => bool_identifier c

/-- Dynamic dispatch of `device_ids` (`BooleanCondition` inherits the
base-class `[]`). -/
def cond_device_ids : CondObj → List Int
  | .staticAttr c => [c.deviceId]
  | .dynAttr c => [c.leftDeviceId, c.rightDeviceId]
  | .boolean _ => []

/-- Dynamic dispatch of `subconditions` (heap ids of the children; only
`BooleanCondition` overrides the base-class `[]`). -/
def cond_sub_ids : CondObj → List Nat
  | .staticAttr _ => []
  | .dynAttr _ => []
  | .boolean c => c.conds.map (·.2.1)

/-- Dynamic dispatch of `evaluate`. -/
def cond_evaluate : CondObj → Except String Bool
  | .staticAttr c => static_evaluate c
  | .dynAttr c => dyn_evaluate c
  | .boolean c => bool_evaluate c

/-- Dynamic dispatch of `on_device_event` (`BooleanCondition` inherits the
base-class no-op). -/
def cond_on_device_event (o : CondObj) (e : HubitatDeviceEvent) : CondObj :=
  match o with
  | .staticAttr c => .staticAttr (static_on_device_event c e)
  | .dynAttr c => .dynAttr (dyn_on_device_event c e)
  | .boolean c => .boolean c

/-- Dynamic dispatch of `on_condition_event`: the base-class body is `pass`
and *no* variant in `rules/condition.py` overrides it, so the call is a no-op
on every condition object.  The engine model therefore leaves the heap
untouched when it makes this call and records the invocation in its effect
log instead. -/
def cond_on_condition_event (o : CondObj) (_child : String) (_triggered : Bool) : CondObj := o

/-- Dynamic dispatch of `initialize`. -/
def cond_init (o : CondObj) (attrs : List (Int × List (String × AttrValue)))
    (conds : List (String × Bool)) : Except String (CondObj × Bool) :=
  match o with
  | .staticAttr c =>
    match static_init c attrs with
    | .ok (c', b) => .ok (.staticAttr c', b)
    | .error e => .error e
  | .dynAttr c =>
    match dyn_init c attrs with
    | .ok (c', b) => .ok (.dynAttr c', b)
    | .error e => .error e
  | .boolean c =>
    match bool_init c conds with
    | .ok (c', b) => .ok (.boolean c', b)
    | .error e => .error e

/-! ## The rule engine (`rules/engine.py`)

This is the engine the claims cite: its registry `self._conditions` is keyed
by the *identifier string* and holds `(ConditionNotifier, bool)` pairs — state
is a plain boolean, there is no `DURATION_PENDING`.  (The repository also
contains `src/he_rules/rules/engine.py`, a reworked engine keyed by
`instance_id` with a tri-state `ConditionState`; the unit tests under `tests/`
use that reworked engine's symbols.)

Asynchronous effects are recorded in an `EngineEffect` log:
  * `timerStart` / `timerCancel` — *awaited* calls into the timer service;
  * `fire` / `fireTimeout` — `notifier.notify()` / `notify_timeout()` on a
    notifier that carries an event (tags identify the `asyncio.Event`);
  * `condEvent parent child state` — an invocation of
    `parent.on_condition_event(child, state)`.
`aio.Event` handles are modelled by numeric tags. -/

structure ConditionNotifier where
  condId : Nat
  eventTag : Option Nat
  toEventTag : Option Nat
deriving DecidableEq, Repr

inductive EngineEffect
  | timerStart (timerId : String) (durationSecs : Nat)
  | timerCancel (timerId : String)
  | fire (tag : Nat)
  | fireTimeout (tag : Nat)
  | condEvent (parent child : String) (state : Bool)
deriving DecidableEq, Repr

/-- Translation of `ConditionNotifier.notify`: sets the event when present. -/
def notify (n : ConditionNotifier) : List EngineEffect :=
  match n.eventTag with
  | some t => [.fire t]
  | Option.none => []

structure EngineState where
  /-- registry `self._conditions`: identifier → (notifier, state) -/
  conditions : List (String × ConditionNotifier × Bool)
  /-- reverse edges `self._condition_deps`: child identifier → set of parent identifiers -/
  condition_deps : List (String × List String)
  /-- dispatch index `self._device_to_conditions`: device id → set of condition identifiers -/
  device_to_conditions : List (Int × List String)
deriving DecidableEq, Repr

def emptyEngine : EngineState := ⟨[], [], []⟩

/-- Translation of `RuleEngine.get_condition_state` (rules/engine.py lines
125-126): `return self._conditions[condition.identifier][1]` — an unguarded
dict index, so an untracked identifier raises `KeyError`. -/
def get_condition_state (s : EngineState) (ident : String) : Except String Bool :=
  match dictGet ident s.conditions with
  | some (_, st) => .ok st
  | Option.none => .error "KeyError"

structure PropagateResult where
  state : EngineState
  touched : List String
  log : List EngineEffect
deriving DecidableEq, Repr

/-- The `if new_state != current_state` body of the propagation loop: store
the new state under the current identifier, keeping the *popped* notifier. -/
def propagate_next_state (st : EngineState) (current : ConditionNotifier)
    (current_id : String) (new_state current_state : Bool) : EngineState :=
  if new_state ≠ current_state then
    { st with conditions := dictSet current_id (current, new_state) st.conditions }
  else st

/-- The `parent.on_condition_event(...)` invocations made by the dependency
loop of one propagation iteration, as log entries (one per *tracked* parent). -/
def notify_parents_log (st : EngineState) (current_id : String) (new_state : Bool) :
    List EngineEffect :=
  ((dictGet current_id st.condition_deps).getD []).filterMap (fun pid =>
    match dictGet pid st.conditions with
    | some _ => some (EngineEffect.condEvent pid current_id new_state)
    | Option.none => Option.none)

/-- The notifiers appended to the work queue by the dependency loop of one
propagation iteration (one per tracked parent). -/
def parents_work (st : EngineState) (current_id : String) : List ConditionNotifier :=
  ((dictGet current_id st.condition_deps).getD []).filterMap (fun pid =>
    (dictGet pid st.conditions).map (·.1))

/-- Translation of `RuleEngine._propagate_state_update` (lines 166-197).

A FIFO work queue of notifiers is drained without de-duplication.  For each
popped condition: re-`evaluate()` it (an exception here escapes the whole
propagation — there is no try/except), store the new state if it changed
(`propagate_next_state`), then for every tracked parent in `condition_deps`
invoke `parent.on_condition_event(child, new_state)` (logged via
`notify_parents_log`; a no-op on the objects, see `cond_on_condition_event`)
and append the parent to the queue (`parents_work`).  `touched_conditions` is
a Python set, whose iteration order is unspecified; the model keeps insertion
order.  The `fuel` argument only bounds the recursion for Lean's termination
checker. -/
def propagate_state_update : Nat → Heap → EngineState → List ConditionNotifier →
    List String → Except String PropagateResult
  | 0, _, _, _, _ => .error "OutOfFuel"
  | _ + 1, _, st, [], touched => .ok ⟨st, touched, []⟩
  | fuel + 1, heap, st, current :: work, touched =>
    let current_id := cond_identifier (heap_node heap current.condId).obj
    match dictGet current_id st.conditions with
    | Option.none => .error "KeyError"
    | some (_, current_state) =>
      match cond_evaluate (heap_node heap current.condId).obj with
      | .error e => .error e
      | .ok new_state =>
        let st' := propagate_next_state st current current_id new_state current_state
        match propagate_state_update fuel heap st' (work ++ parents_work st' current_id)
            (setAdd current_id touched) with
        | .error e => .error e
        | .ok r =>
          .ok ⟨r.state, r.touched, notify_parents_log st' current_id new_state ++ r.log⟩

/-- Timer cancellations issued at the top of `_remove_condition`. -/
def remove_cancel_log (ident : String) : List EngineEffect :=
  [EngineEffect.timerCancel s!"condition_timeout({ident})",
   EngineEffect.timerCancel s!"condition_duration({ident})"]

/-- Translation of `RuleEngine._remove_condition` (lines 306-328), written as
a depth-first worklist so the recursion is structural on the fuel: for the
condition at hand, cancel both timers, and if its identifier is tracked,
delete it from the registry, purge it from the device index (dropping empty
device entries), delete its outgoing dependency entry, and push its
subconditions (each guarded by the `if sub.identifier in self._conditions`
test of the source's loop, evaluated when the item is reached).  Items with
`guarded = false` model direct `_remove_condition` calls, which cancel the
timers even when the identifier is untracked. -/
def remove_condition_list : Nat → Heap → EngineState → List (Nat × Bool) →
    Except String (EngineState × List EngineEffect)
  | 0, _, _, _ => .error "OutOfFuel"
  | _ + 1, _, st, [] => .ok (st, [])
  | fuel + 1, heap, st, (objId, guarded) :: rest =>
    let node := heap_node heap objId
    let ident := cond_identifier node.obj
    match dictGet ident st.conditions with
    | Option.none =>
      if guarded then remove_condition_list fuel heap st rest
      else
        match remove_condition_list fuel heap st rest with
        | .error e => .error e
        | .ok (st', log') => .ok (st', remove_cancel_log ident ++ log')
    | some _ =>
      let conditions' := dictDel ident st.conditions
      let devmap := (cond_device_ids node.obj).foldl (fun dm did =>
        match dictGet did dm with
        | Option.none => dm
        | some idents =>
          let idents' := setDiscard ident idents
          if idents' = [] then dictDel did dm else dictSet did idents' dm)
        st.device_to_conditions
      let deps' := dictDel ident st.condition_deps
      let st' : EngineState := ⟨conditions', deps', devmap⟩
      match remove_condition_list fuel heap st'
          ((cond_sub_ids node.obj).map (fun i => (i, true)) ++ rest) with
      | .error e => .error e
      | .ok (st'', log') => .ok (st'', remove_cancel_log ident ++ log')

/-- Entry point matching a direct `self._remove_condition(condition)` call. -/
def remove_condition (fuel : Nat) (heap : Heap) (st : EngineState) (objId : Nat) :
    Except String (EngineState × List EngineEffect) :=
  remove_condition_list fuel heap st [(objId, false)]

/-- Translation of the body of the `for notifier in notifiers` loop in
`RuleEngine._process_condition_change` (lines 209-254), processing the touched
conditions in order:

  * `prev is True and curr is False and duration is not None` → cancel the
    duration timer;
  * `curr is True and prev is False and duration is not None` → the source
    calls `self._timer_service.start_timer(...)` *without awaiting it* (line
    240; `start_timer` is `async def`, so the coroutine is created and
    discarded — no timer is ever started) and then executes `return`,
    abandoning the loop and every remaining touched condition;
  * `curr is True and prev is False` (no duration) → `_remove_condition`,
    cancel the timeout timer, `notifier.notify()`.

The unguarded `self._conditions[...]` / `previous_state[...]` indexes can
raise `KeyError` when a touched condition was removed by an earlier iteration. -/
def process_touched (fuel : Nat) (heap : Heap) (previous : List (String × Bool)) :
    EngineState → List ConditionNotifier → Except String (EngineState × List EngineEffect)
  | st, [] => .ok (st, [])
  | st, notifier :: rest =>
    let node := heap_node heap notifier.condId
    let ident := cond_identifier node.obj
    match dictGet ident st.conditions with
    | Option.none => .error "KeyError"
    | some (_, curr) =>
      match dictGet ident previous with
      | Option.none => .error "KeyError"
      | some prev =>
        let cancelLog : List EngineEffect :=
          if prev = true ∧ curr = false ∧ node.duration ≠ Option.none then
            [EngineEffect.timerCancel s!"condition_duration({ident})"] else []
        if curr = true ∧ prev = false ∧ node.duration ≠ Option.none then
          -- un-awaited start_timer (no effect), then `return`: rest is dropped
          .ok (st, cancelLog)
        else if curr = true ∧ prev = false then
          match remove_condition fuel heap st notifier.condId with
          | .error e => .error e
          | .ok (st', remLog) =>
            let fireLog := remLog ++
              [EngineEffect.timerCancel s!"condition_timeout({ident})"] ++ notify notifier
            match process_touched fuel heap previous st' rest with
            | .error e => .error e
            | .ok (st'', log') => .ok (st'', cancelLog ++ fireLog ++ log')
        else
          match process_touched fuel heap previous st rest with
          | .error e => .error e
          | .ok (st'', log') => .ok (st'', cancelLog ++ log')

/-- Translation of `RuleEngine._process_condition_change` (lines 199-254):
snapshot all current states, propagate, then run the firing rules over the
touched conditions (`process_touched`). -/
def process_condition_change (fuel : Nat) (heap : Heap) (st : EngineState)
    (impacted : List ConditionNotifier) : Except String (EngineState × List EngineEffect) :=
  let previous := st.conditions.map (fun p => (p.1, p.2.2))
  match propagate_state_update fuel heap st impacted [] with
  | .error e => .error e
  | .ok r =>
    -- `[self._conditions[cid][0] for cid in touched_conditions]`; propagation
    -- never removes registry entries, so the index cannot fail here
    let notifiers := r.touched.filterMap (fun cid => (dictGet cid r.state.conditions).map (·.1))
    match process_touched fuel heap previous r.state notifiers with
    | .error e => .error e
    | .ok (st', log') => .ok (st', r.log ++ log')

/-- Translation of `RuleEngine.on_device_event` (lines 132-148): look up the
conditions registered for the device, deliver `on_device_event` to each
(mutating the condition objects in the heap), then enter
`_process_condition_change` with those notifiers as the frontier. -/
def on_device_event (fuel : Nat) (heap : Heap) (st : EngineState)
    (event : HubitatDeviceEvent) : Except String (Heap × EngineState × List EngineEffect) :=
  match dictGet event.deviceId st.device_to_conditions with
  | Option.none => .ok (heap, st, [])
  | some impacted_ids =>
    let impacted := impacted_ids.filterMap (fun cid => (dictGet cid st.conditions).map (·.1))
    let heap' := impacted.foldl (fun h n =>
      let node := heap_node h n.condId
      heapSet h n.condId { node with obj := cond_on_device_event node.obj event }) heap
    match process_condition_change fuel heap' st impacted with
    | .error e => .error e
    | .ok (st', log) => .ok (heap', st', log)

/-- Combined translation of `RuleEngine._add_condition` (lines 260-304) and
`RuleEngine._initialize_sub_conditions` (lines 334-347), merged into one
function (structural on the fuel) over a sum argument:

`Sum.inl notifier` is `_add_condition(notifier)`: index the device ids,
initialise subconditions (the `Sum.inr` mode), fetch initial attributes per
device from the Hubitat client, initialise the condition, store
`(notifier, state)` in the registry under the *identifier* (a plain dict
assignment — a second condition with the same identifier replaces the first
entry), start the timeout timer if any, and handle an immediately-true
initial state (duration → start the duration timer; otherwise cancel the
timeout, remove the condition and fire the notifier).

`Sum.inr (parentIdent, subIds)` is `_initialize_sub_conditions`: for each
subcondition *not yet tracked*, register the dependency edge child → parent
and recursively add it (with a bare notifier); a subcondition that is already
tracked gets **no** dependency edge.  Either way its current state is
recorded in the returned `init_cond_states` (the fourth component, unused by
the `Sum.inl` mode). -/
def add_condition_aux : Nat → Heap → EngineState → (Int → List (String × AttrValue)) →
    Sum ConditionNotifier (String × List Nat) →
    Except String (Heap × EngineState × List EngineEffect × List (String × Bool))
  | 0, _, _, _, _ => .error "OutOfFuel"
  | _ + 1, heap, st, _, Sum.inr (_, []) => .ok (heap, st, [], [])
  | fuel + 1, heap, st, heClient, Sum.inr (parentIdent, subId :: rest) =>
    let subIdent := cond_identifier (heap_node heap subId).obj
    match dictGet subIdent st.conditions with
    | Option.none =>
      let deps' := match dictGet subIdent st.condition_deps with
        | Option.none => dictSet subIdent [parentIdent] st.condition_deps
        | some parents => dictSet subIdent (setAdd parentIdent parents) st.condition_deps
      let st' := { st with condition_deps := deps' }
      match add_condition_aux fuel heap st' heClient
          (Sum.inl ⟨subId, Option.none, Option.none⟩) with
      | .error e => .error e
      | .ok (heap₁, st₁, log₁, _) =>
        match dictGet subIdent st₁.conditions with
        | Option.none => .error "KeyError"
        | some (_, stSub) =>
          match add_condition_aux fuel heap₁ st₁ heClient (Sum.inr (parentIdent, rest)) with
          | .error e => .error e
          | .ok (heap₂, st₂, log₂, states) =>
            .ok (heap₂, st₂, log₁ ++ log₂, dictSet subIdent stSub states)
    | some (_, stSub) =>
      match add_condition_aux fuel heap st heClient (Sum.inr (parentIdent, rest)) with
      | .error e => .error e
      | .ok (heap₂, st₂, log₂, states) =>
        .ok (heap₂, st₂, log₂, dictSet subIdent stSub states)
  | fuel + 1, heap, st, heClient, Sum.inl notifier =>
    let node := heap_node heap notifier.condId
    let ident := cond_identifier node.obj
    let devmap := (cond_device_ids node.obj).foldl (fun dm did =>
      match dictGet did dm with
      | Option.none => dictSet did [ident] dm
      | some idents => dictSet did (setAdd ident idents) dm) st.device_to_conditions
    let st₀ := { st with device_to_conditions := devmap }
    match add_condition_aux fuel heap st₀ heClient (Sum.inr (ident, cond_sub_ids node.obj)) with
    | .error e => .error e
    | .ok (heap₁, st₁, subLog, init_cond_states) =>
      let init_attrs := (cond_device_ids node.obj).foldl
        (fun m did => dictSet did (heClient did) m) []
      let node₁ := heap_node heap₁ notifier.condId
      match cond_init node₁.obj init_attrs init_cond_states with
      | .error e => .error e
      | .ok (obj', state0) =>
        let heap₂ := heapSet heap₁ notifier.condId { node₁ with obj := obj' }
        let st₂ := { st₁ with conditions := dictSet ident (notifier, state0) st₁.conditions }
        let timeoutLog : List EngineEffect := match node₁.timeout with
          | some t => [EngineEffect.timerStart s!"condition_timeout({ident})" t]
          | Option.none => []
        if state0 then
          match node₁.duration with
          | some d =>
            .ok (heap₂, st₂,
              subLog ++ timeoutLog ++
                [EngineEffect.timerStart s!"condition_duration({ident})" d], [])
          | Option.none =>
            let cancelLog := [EngineEffect.timerCancel s!"condition_timeout({ident})"]
            match remove_condition fuel heap₂ st₂ notifier.condId with
            | .error e => .error e
            | .ok (st₃, remLog) =>
              .ok (heap₂, st₃,
                subLog ++ timeoutLog ++ cancelLog ++ remLog ++ notify notifier, [])
        else .ok (heap₂, st₂, subLog ++ timeoutLog, [])

/-- Entry point matching `RuleEngine.add_condition` /
`self._add_condition(notifier)`. -/
def add_condition (fuel : Nat) (heap : Heap) (st : EngineState)
    (heClient : Int → List (String × AttrValue)) (notifier : ConditionNotifier) :
    Except String (Heap × EngineState × List EngineEffect) :=
  match add_condition_aux fuel heap st heClient (Sum.inl notifier) with
  | .error e => .error e
  | .ok (heap', st', log, _) => .ok (heap', st', log)

/-! ## The timer service (`timing/timers.py`)

`TimerService.start_timer` only *enqueues* a `TimerRequest`; the background
`_process_queue` task later dequeues it and `_start_timer_internal` registers
the timer (cancelling any existing timer with the same id first) and spawns a
task that sleeps, runs the callback, and in a `finally` block deletes the map
entry for its id.  `cancel_timer` is synchronous: it looks the id up in
`self._timers`, cancels the task and deletes the entry — a queued-but-not-yet
-dispatched request is invisible to it.

The model is a small-step trace semantics.  Tasks are identified by fresh
numeric tokens; `fired` records the tokens whose callback actually ran. -/

structure TimerReq where
  id : String
  durationSecs : Nat
deriving DecidableEq, Repr

structure TaskInfo where
  timerId : String
  /-- set when `task.cancel()` was called before the sleep finished -/
  cancelled : Bool
  /-- the task body finished (callback ran, or cancellation was processed) -/
  completed : Bool
deriving DecidableEq, Repr

structure TimerServiceState where
  /-- map `self._timers`: id → token of the currently registered task -/
  timers : List (String × Nat)
  /-- queue `self._queue` of pending start requests -/
  queue : List TimerReq
  /-- every task ever spawned, keyed by token -/
  tasks : List (Nat × TaskInfo)
  nextToken : Nat
  /-- tokens whose callback ran -/
  fired : List Nat
deriving DecidableEq, Repr

def initTimerService : TimerServiceState := ⟨[], [], [], 0, []⟩

/-- Translation of `TimerService.cancel_timer` (lines 103-119): returns
`False` when the id is not registered; otherwise cancels the task (if it is
not yet done) and deletes the entry, returning `True`. -/
def cancel_timer (s : TimerServiceState) (timerId : String) : Bool × TimerServiceState :=
  match dictGet timerId s.timers with
  | Option.none => (false, s)
  | some tok =>
    match dictGet tok s.tasks with
    | some info =>
      if info.completed then (true, { s with timers := dictDel timerId s.timers })
      else (true, { s with
        tasks := dictSet tok { info with cancelled := true } s.tasks,
        timers := dictDel timerId s.timers })
    | Option.none => (true, { s with timers := dictDel timerId s.timers })

/-- Translation of `TimerService.start_timer` (lines 86-101): build a
`TimerRequest` and put it on the queue — nothing else happens until the
dispatcher processes it. -/
def start_timer (s : TimerServiceState) (req : TimerReq) : TimerServiceState :=
  { s with queue := s.queue ++ [req] }

/-- Translation of one iteration of `_process_queue` +
`_start_timer_internal` (lines 54-84): dequeue a request; if its id is
registered, `cancel_timer` it; then spawn the timer task (a fresh token) and
register it in `self._timers`. -/
def register_timer (s : TimerServiceState) (tid : String) : TimerServiceState :=
  { s with
    timers := dictSet tid s.nextToken s.timers,
    tasks := s.tasks ++ [(s.nextToken, ⟨tid, false, false⟩)],
    nextToken := s.nextToken + 1 }

def dispatch_one (s : TimerServiceState) : TimerServiceState :=
  match s.queue with
  | [] => s
  | req :: rest =>
    if (dictGet req.id s.timers).isSome then
      register_timer (cancel_timer { s with queue := rest } req.id).2 req.id
    else
      register_timer { s with queue := rest } req.id

/-- Model of a timer task reaching the end of its sleep: when the task was
not cancelled its callback runs (`fired`), then the `finally` block deletes
the map entry under the task's id if one is present. -/
def fire_task (s : TimerServiceState) (tok : Nat) : TimerServiceState :=
  match dictGet tok s.tasks with
  | Option.none => s
  | some info =>
    if info.cancelled ∨ info.completed then s
    else
      { s with
        fired := s.fired ++ [tok],
        tasks := dictSet tok { info with completed := true } s.tasks,
        timers := dictDel info.timerId s.timers }

/-- Model of a cancelled task processing its `CancelledError`: the callback
does not run, the `finally` block still deletes the map entry for the id. -/
def cancelled_cleanup (s : TimerServiceState) (tok : Nat) : TimerServiceState :=
  match dictGet tok s.tasks with
  | Option.none => s
  | some info =>
    if info.cancelled ∧ ¬info.completed then
      { s with
        tasks := dictSet tok { info with completed := true } s.tasks,
        timers := dictDel info.timerId s.timers }
    else s

inductive TimerStep
  | start (req : TimerReq)
  | dispatch
  | fire (tok : Nat)
  | cancel (timerId : String)
  | cleanup (tok : Nat)
deriving DecidableEq, Repr

def timer_step (s : TimerServiceState) : TimerStep → TimerServiceState
  | .start req => start_timer s req
  | .dispatch => dispatch_one s
  | .fire tok => fire_task s tok
  | .cancel tid => (cancel_timer s tid).2
  | .cleanup tok => cancelled_cleanup s tok

def run_timer_steps (s : TimerServiceState) : List TimerStep → TimerServiceState
  | [] => s
  | stp :: rest => run_timer_steps (timer_step s stp) rest

/-! ## The scheduled-rule supervisor (`rules/handler.py` `_run_scheduled_rule`)

The loop repeatedly awaits `timer_provider()`; `None` exits normally.  A
returned instant in the past triggers the retry loop
`i = 0; while next_trigger <= datetime.now() and i < 2: i += 1;
next_trigger = await timer_provider()`, followed by
`if next_trigger <= datetime.now(): return`.  Otherwise the loop sleeps until
the instant and runs the action; an action exception is re-raised, breaking
the loop.

The model fixes `datetime.now()` to a constant `now` (the stale-check
comparisons happen microseconds apart); `provider k` is the result of the
`k`-th provider call and `action k` the outcome of the `k`-th action run.
Comparing `None` against `datetime.now()` raises `TypeError` in Python, which
the model reports as `.typeError`. -/

inductive ScheduledOutcome
  | finished
  | staleReturn
  | actionError (e : String)
  | typeError
  | outOfFuel
deriving DecidableEq, Repr

structure ScheduledRun where
  providerCalls : Nat
  actionRuns : Nat
  outcome : ScheduledOutcome
deriving DecidableEq, Repr

/-- Translation of `RuleHandler._run_scheduled_rule` (lines 272-324), with the
inner retry loop (at most two iterations) unrolled. -/
def run_scheduled_rule (provider : Nat → Option Int) (now : Int)
    (action : Nat → Except String Unit) : Nat → Nat → Nat → ScheduledRun
  | 0, calls, runs => ⟨calls, runs, .outOfFuel⟩
  | fuel + 1, calls, runs =>
    match provider calls with
    | Option.none => ⟨calls + 1, runs, .finished⟩
    | some next0 =>
      let calls1 := calls + 1
      if next0 ≤ now then
        match provider calls1 with
        | Option.none => ⟨calls1 + 1, runs, .typeError⟩
        | some next1 =>
          let calls2 := calls1 + 1
          if next1 ≤ now then
            match provider calls2 with
            | Option.none => ⟨calls2 + 1, runs, .typeError⟩
            | some next2 =>
              let calls3 := calls2 + 1
              if next2 ≤ now then ⟨calls3, runs, .staleReturn⟩
              else
                match action runs with
                | .ok _ => run_scheduled_rule provider now action fuel calls3 (runs + 1)
                | .error e => ⟨calls3, runs + 1, .actionError e⟩
          else
            match action runs with
            | .ok _ => run_scheduled_rule provider now action fuel calls2 (runs + 1)
            | .error e => ⟨calls2, runs + 1, .actionError e⟩
      else
        match action runs with
        | .ok _ => run_scheduled_rule provider now action fuel calls1 (runs + 1)
        | .error e => ⟨calls1, runs + 1, .actionError e⟩

/-! ## The active-rule index (`rules/handler.py`)

`RuleHandler._active_rules` maps rule names to supervisor `Task` objects.  The
model keeps a task status in place of the `Task`.  A supervisor task that
terminates on its own only changes the state *inside* the task object —
nothing in `handler.py` removes the dict entry. -/

inductive TaskStatus
  | running
  | completed
  | failed
  | cancelled
deriving DecidableEq, Repr

structure HandlerState where
  active_rules : List (String × TaskStatus)
deriving DecidableEq, Repr

/-- Translation of the duplicate-name pre-check plus task registration in
`RuleHandler.install_rule` / `install_scheduled_rule` (lines 39-42, 71-77,
88-91, 113-117). -/
def install_rule (s : HandlerState) (name : String) : Except String HandlerState :=
  if (dictGet name s.active_rules).isSome then
    .error "already exists"
  else .ok ⟨dictSet name TaskStatus.running s.active_rules⟩

/-- Translation of `RuleHandler.uninstall_rule` (lines 130-143): unknown names
raise; otherwise the task is cancelled, awaited, and the entry deleted. -/
def uninstall_rule (s : HandlerState) (name : String) : Except String HandlerState :=
  if (dictGet name s.active_rules).isSome then
    .ok ⟨dictDel name s.active_rules⟩
  else .error "does not exist"

/-- Translation of `RuleHandler.get_active_rules` (lines 145-147). -/
def get_active_rules (s : HandlerState) : List String := s.active_rules.map (·.1)

/-- Model of a supervisor task terminating on its own (`_run_scheduled_rule`
returning after provider exhaustion or stale times, or re-raising an action
failure): only the task object's status changes; `_active_rules` keeps its
entry — no code path in `handler.py` removes it except `uninstall_rule`. -/
def task_complete (s : HandlerState) (name : String) (status : TaskStatus) : HandlerState :=
  ⟨s.active_rules.map (fun p => if p.1 = name then (p.1, status) else p)⟩

/-! ## General lemmas about the dictionary model -/

theorem dictGet_append_left {α β : Type} [DecidableEq α] (k : α) (v : β)
    (l l' : List (α × β)) (h : dictGet k l = some v) : dictGet k (l ++ l') = some v := by
  induction l with
  | nil => simp [dictGet] at h
  | cons hd tl ih =>
    obtain ⟨k', v'⟩ := hd
    by_cases hk : k = k'
    · simpa [dictGet, hk] using h
    · rw [dictGet_cons, if_neg hk] at h
      simpa [dictGet, hk] using ih h

theorem dictGet_isSome_iff_mem {α β : Type} [DecidableEq α] (k : α) (l : List (α × β)) :
    (dictGet k l).isSome = true ↔ k ∈ l.map Prod.fst := by
  induction l with
  | nil => simp [dictGet]
  | cons hd tl ih =>
    obtain ⟨k', v'⟩ := hd
    by_cases hk : k = k' <;> simp [dictGet, hk, ih]

theorem dictGet_eq_none_of_not_mem {α β : Type} [DecidableEq α] (k : α) (l : List (α × β))
    (h : k ∉ l.map Prod.fst) : dictGet k l = Option.none := by
  cases hg : dictGet k l with
  | none => rfl
  | some v =>
    exact absurd ((dictGet_isSome_iff_mem k l).mp (by simp [hg])) h

theorem dictGet_dictDel_self {α β : Type} [DecidableEq α] (k : α) (l : List (α × β))
    (h : (l.map Prod.fst).Nodup) : dictGet k (dictDel k l) = Option.none := by
  induction l with
  | nil => simp [dictDel]
  | cons hd tl ih =>
    obtain ⟨k', v'⟩ := hd
    simp only [List.map_cons, List.nodup_cons] at h
    by_cases hk : k = k'
    · subst hk
      simpa [dictDel] using dictGet_eq_none_of_not_mem k tl h.1
    · simp only [dictDel, if_neg hk, dictGet_cons]
      exact ih h.2

/-! ## Lemmas about the active-rule index -/

theorem task_complete_keys (s : HandlerState) (name : String) (status : TaskStatus) :
    (task_complete s name status).active_rules.map Prod.fst = s.active_rules.map Prod.fst := by
  simp only [task_complete, List.map_map]
  apply List.map_congr_left
  intro p _
  by_cases h : p.1 = name <;> simp [h]

/-- C10 — a rule whose supervisor task terminates on its own stays in the
active-rule index: its name is still listed by `get_active_rules`, installing
the same name still fails with the already-exists error, and only
`uninstall_rule` removes the entry. -/
theorem c10_completed_rule_stays_active (s : HandlerState) (name : String)
    (status : TaskStatus)
    (hmem : (dictGet name s.active_rules).isSome = true)
    (hnodup : (s.active_rules.map Prod.fst).Nodup) :
    name ∈ get_active_rules (task_complete s name status) ∧
    install_rule (task_complete s name status) name = .error "already exists" ∧
    ∃ s', uninstall_rule (task_complete s name status) name = .ok s' ∧
      dictGet name s'.active_rules = Option.none := by
  have hkeys := task_complete_keys s name status
  have hmem' : (dictGet name (task_complete s name status).active_rules).isSome = true := by
    rw [dictGet_isSome_iff_mem, hkeys]
    exact (dictGet_isSome_iff_mem name s.active_rules).mp hmem
  refine ⟨?_, ?_, ?_⟩
  · rw [get_active_rules, ← dictGet_isSome_iff_mem]
    exact hmem'
  · simp [install_rule, hmem']
  · refine ⟨⟨dictDel name (task_complete s name status).active_rules⟩, ?_, ?_⟩
    · simp [uninstall_rule, hmem']
    · exact dictGet_dictDel_self name _ (hkeys ▸ hnodup)

/-- One-rule active index used by the C10 witness. -/
def c10w_state : HandlerState := ⟨[("night_mode", TaskStatus.running)]⟩

/-- Witness for `c10_completed_rule_stays_active` at a concrete one-rule index. -/
theorem c10_witness :
    "night_mode" ∈ get_active_rules (task_complete c10w_state "night_mode"
      TaskStatus.completed) ∧
    install_rule (task_complete c10w_state "night_mode" TaskStatus.completed)
      "night_mode" = .error "already exists" ∧
    ∃ s', uninstall_rule (task_complete c10w_state "night_mode" TaskStatus.completed)
        "night_mode" = .ok s' ∧
      dictGet "night_mode" s'.active_rules = Option.none :=
  c10_completed_rule_stays_active c10w_state "night_mode" TaskStatus.completed
    (by decide) (by decide)

/-- C9 — a scheduled rule whose time provider only ever returns instants not
after the current time makes exactly three provider calls (the initial call
plus the two retries of the inner loop), then the supervisor returns via the
stale-time `return`, and the rule's action never runs. -/
theorem c9_stale_provider_terminates (provider : Nat → Option Int) (now : Int)
    (action : Nat → Except String Unit) (fuel : Nat)
    (hpast : ∀ k t, provider k = some t → t ≤ now)
    (hsome : ∀ k, provider k ≠ Option.none) :
    run_scheduled_rule provider now action (fuel + 1) 0 0 =
      ⟨3, 0, ScheduledOutcome.staleReturn⟩ := by
  obtain ⟨t0, h0⟩ : ∃ t, provider 0 = some t := by
    cases h : provider 0 with
    | none => exact absurd h (hsome 0)
    | some t => exact ⟨t, rfl⟩
  obtain ⟨t1, h1⟩ : ∃ t, provider 1 = some t := by
    cases h : provider 1 with
    | none => exact absurd h (hsome 1)
    | some t => exact ⟨t, rfl⟩
  obtain ⟨t2, h2⟩ : ∃ t, provider 2 = some t := by
    cases h : provider 2 with
    | none => exact absurd h (hsome 2)
    | some t => exact ⟨t, rfl⟩
  simp [run_scheduled_rule, h0, h1, h2, hpast 0 t0 h0, hpast 1 t1 h1, hpast 2 t2 h2]

/-- Witness for `c9_stale_provider_terminates`: a provider that always
returns an instant ten minutes in the past (`now = 0`). -/
theorem c9_witness :
    run_scheduled_rule (fun _ => some (-600)) 0 (fun _ => .ok ()) 6 0 0 =
      ⟨3, 0, ScheduledOutcome.staleReturn⟩ :=
  c9_stale_provider_terminates (fun _ => some (-600)) 0 (fun _ => .ok ()) 5
    (fun _ t h => by cases h; decide) (fun _ h => by cases h)

/-- C3 — `RuleEngine.get_condition_state` on an untracked condition: the
source indexes `self._conditions[condition.identifier]` unguarded, so instead
of returning false it raises `KeyError`. -/
theorem c3_get_condition_state_raises (s : EngineState) (ident : String)
    (h : dictGet ident s.conditions = Option.none) :
    get_condition_state s ident = .error "KeyError" := by
  simp [get_condition_state, h]

/-- Witness for `c3_get_condition_state_raises`: querying a condition that was
never added (empty engine). -/
theorem c3_witness :
    dictGet (static_identifier ⟨123, "switch", "=", .str "on", .none⟩)
      emptyEngine.conditions = Option.none ∧
    get_condition_state emptyEngine
      (static_identifier ⟨123, "switch", "=", .str "on", .none⟩) = .error "KeyError" :=
  ⟨rfl, c3_get_condition_state_raises emptyEngine _ rfl⟩

/-- Static condition used by the C8 counterexample: operator `>` with the
device value `None` (a missing attribute reading). -/
def c8_static : StaticCond := ⟨77, "temperature", ">", .int 70, .none⟩

/-- C8 counterexample — `StaticDeviceAttributeCondition.evaluate` with an
ordering operator and a `None` device value does *not* return false: it
raises `TypeError` (the source compares `self._device_value > self._value`
with no `None` guard). -/
theorem c8_counterexample :
    c8_static.deviceValue = AttrValue.none ∧
    static_evaluate c8_static ≠ .ok false ∧
    static_evaluate c8_static = .error "TypeError: unsupported comparison" := by
  refine ⟨rfl, ?_, rfl⟩
  intro h
  rw [show static_evaluate c8_static =
    .error "TypeError: unsupported comparison" from rfl] at h
  exact Except.noConfusion h

/-- C8 (amended) — only `DynamicDeviceAttributeCondition` guarantees the
claimed behaviour: with an ordering operator, whenever either side is `None`,
its `evaluate` returns false instead of raising.  (The static variant raises
`TypeError`, see the counterexample.) -/
theorem c8_amended_dynamic_null_ordering_false (c : DynCond)
    (hop : c.op = ">" ∨ c.op = ">=" ∨ c.op = "<" ∨ c.op = "<=")
    (hnull : c.leftValue = AttrValue.none ∨ c.rightValue = AttrValue.none) :
    dyn_evaluate c = .ok false := by
  have hcond : ¬(c.leftValue ≠ AttrValue.none ∧ c.rightValue ≠ AttrValue.none) := by
    rcases hnull with h | h <;> simp [h]
  rcases hop with h | h | h | h <;> simp [dyn_evaluate, h, hcond]

/-- Witness for `c8_amended_dynamic_null_ordering_false`: a dynamic condition
whose left side has never been seen (`None`). -/
theorem c8_amended_witness :
    dyn_evaluate ⟨5, "level", ">", 6, "level", AttrValue.none, .int 40⟩ = .ok false :=
  c8_amended_dynamic_null_ordering_false
    ⟨5, "level", ">", 6, "level", AttrValue.none, .int 40⟩ (Or.inl rfl) (Or.inl rfl)

/-! ## Lemmas about the timer-service trace model -/

theorem cancel_timer_fired (s : TimerServiceState) (tid : String) :
    (cancel_timer s tid).2.fired = s.fired := by
  cases htid : dictGet tid s.timers with
  | none => simp [cancel_timer, htid]
  | some tok =>
    cases hg : dictGet tok s.tasks with
    | none => simp [cancel_timer, htid, hg]
    | some info =>
      by_cases hdone : info.completed = true
      · simp [cancel_timer, htid, hg, hdone]
      · simp [cancel_timer, htid, hg, hdone]

theorem cancel_timer_tasks_shape (s : TimerServiceState) (tid : String) :
    (cancel_timer s tid).2.tasks = s.tasks ∨
      ∃ tok2 info2, dictGet tok2 s.tasks = some info2 ∧
        (cancel_timer s tid).2.tasks =
          dictSet tok2 { info2 with cancelled := true } s.tasks := by
  cases htid : dictGet tid s.timers with
  | none => left; simp [cancel_timer, htid]
  | some tok =>
    cases hg2 : dictGet tok s.tasks with
    | none => left; simp [cancel_timer, htid, hg2]
    | some info2 =>
      by_cases hdone : info2.completed = true
      · left; simp [cancel_timer, htid, hg2, hdone]
      · right
        refine ⟨tok, info2, hg2, ?_⟩
        simp [cancel_timer, htid, hg2, hdone]

theorem tasks_shape_cancelled_preserved (l l' : List (Nat × TaskInfo)) (tok : Nat)
    (info : TaskInfo) (hget : dictGet tok l = some info) (hc : info.cancelled = true)
    (hshape : l' = l ∨ ∃ tok2 info2, dictGet tok2 l = some info2 ∧
      l' = dictSet tok2 { info2 with cancelled := true } l) :
    ∃ info', dictGet tok l' = some info' ∧ info'.cancelled = true := by
  rcases hshape with rfl | ⟨tok2, info2, hg2, rfl⟩
  · exact ⟨info, hget, hc⟩
  · rw [dictGet_dictSet]
    by_cases he : tok = tok2
    · subst he
      rw [hget] at hg2
      cases hg2
      exact ⟨_, if_pos rfl, rfl⟩
    · rw [if_neg he]
      exact ⟨info, hget, hc⟩

theorem cancel_timer_cancelled_preserved (s : TimerServiceState) (tid : String)
    (tok : Nat) (info : TaskInfo) (hget : dictGet tok s.tasks = some info)
    (hc : info.cancelled = true) :
    ∃ info', dictGet tok (cancel_timer s tid).2.tasks = some info' ∧
      info'.cancelled = true :=
  tasks_shape_cancelled_preserved s.tasks _ tok info hget hc
    (cancel_timer_tasks_shape s tid)

theorem timer_step_cancelled_preserved (s : TimerServiceState) (stp : TimerStep)
    (tok : Nat) (info : TaskInfo) (hget : dictGet tok s.tasks = some info)
    (hc : info.cancelled = true) :
    ∃ info', dictGet tok (timer_step s stp).tasks = some info' ∧
      info'.cancelled = true := by
  cases stp with
  | start req => exact ⟨info, hget, hc⟩
  | cancel tid => exact cancel_timer_cancelled_preserved s tid tok info hget hc
  | dispatch =>
    show ∃ info', dictGet tok (dispatch_one s).tasks = some info' ∧ info'.cancelled = true
    cases hq : s.queue with
    | nil => simp only [dispatch_one, hq]; exact ⟨info, hget, hc⟩
    | cons req rest =>
      by_cases hin : (dictGet req.id s.timers).isSome = true
      · simp only [dispatch_one, hq, hin, if_true, register_timer]
        obtain ⟨info', hget', hc'⟩ :=
          cancel_timer_cancelled_preserved { s with queue := rest } req.id tok info hget hc
        exact ⟨info', dictGet_append_left tok info' _ _ hget', hc'⟩
      · simp only [dispatch_one, hq, hin, if_false, register_timer]
        exact ⟨info, dictGet_append_left tok info _ _ hget, hc⟩
  | fire tok' =>
    show ∃ info', dictGet tok (fire_task s tok').tasks = some info' ∧ info'.cancelled = true
    cases hg2 : dictGet tok' s.tasks with
    | none => simp only [fire_task, hg2]; exact ⟨info, hget, hc⟩
    | some info2 =>
      by_cases hguard : info2.cancelled = true ∨ info2.completed = true
      · simp only [fire_task, hg2, if_pos hguard]
        exact ⟨info, hget, hc⟩
      · simp only [fire_task, hg2, if_neg hguard]
        rw [dictGet_dictSet]
        by_cases he : tok = tok'
        · subst he
          rw [hget] at hg2
          cases hg2
          exact absurd (Or.inl hc) hguard
        · rw [if_neg he]
          exact ⟨info, hget, hc⟩
  | cleanup tok' =>
    show ∃ info', dictGet tok (cancelled_cleanup s tok').tasks = some info' ∧
      info'.cancelled = true
    cases hg2 : dictGet tok' s.tasks with
    | none => simp only [cancelled_cleanup, hg2]; exact ⟨info, hget, hc⟩
    | some info2 =>
      by_cases hguard : info2.cancelled = true ∧ ¬info2.completed = true
      · simp only [cancelled_cleanup, hg2, if_pos hguard]
        rw [dictGet_dictSet]
        by_cases he : tok = tok'
        · subst he
          rw [hget] at hg2
          cases hg2
          exact ⟨_, if_pos rfl, hc⟩
        · rw [if_neg he]
          exact ⟨info, hget, hc⟩
      · simp only [cancelled_cleanup, hg2, if_neg hguard]
        exact ⟨info, hget, hc⟩

theorem timer_step_fired_mono (s : TimerServiceState) (stp : TimerStep) (tok : Nat)
    (hfired : tok ∈ (timer_step s stp).fired) :
    tok ∈ s.fired ∨
      ∃ info, dictGet tok s.tasks = some info ∧ info.cancelled = false ∧
        info.completed = false := by
  cases stp with
  | start req => exact Or.inl hfired
  | cancel tid => exact Or.inl ((cancel_timer_fired s tid) ▸ hfired)
  | dispatch =>
    left
    have hfired' : tok ∈ (dispatch_one s).fired := hfired
    cases hq : s.queue with
    | nil => rw [dispatch_one, hq] at hfired'; exact hfired'
    | cons req rest =>
      by_cases hin : (dictGet req.id s.timers).isSome = true
      · simp only [dispatch_one, hq, hin, if_true, register_timer] at hfired'
        rwa [show (cancel_timer { s with queue := rest } req.id).2.fired = s.fired from
          cancel_timer_fired _ _] at hfired'
      · simp only [dispatch_one, hq, hin, if_false, register_timer] at hfired'
        exact hfired'
  | cleanup tok' =>
    left
    have hfired' : tok ∈ (cancelled_cleanup s tok').fired := hfired
    cases hg2 : dictGet tok' s.tasks with
    | none => simp only [cancelled_cleanup, hg2] at hfired'; exact hfired'
    | some info2 =>
      by_cases hguard : info2.cancelled = true ∧ ¬info2.completed = true
      · simp only [cancelled_cleanup, hg2, if_pos hguard] at hfired'; exact hfired'
      · simp only [cancelled_cleanup, hg2, if_neg hguard] at hfired'; exact hfired'
  | fire tok' =>
    have hfired' : tok ∈ (fire_task s tok').fired := hfired
    cases hg2 : dictGet tok' s.tasks with
    | none => simp only [fire_task, hg2] at hfired'; exact Or.inl hfired'
    | some info2 =>
      by_cases hguard : info2.cancelled = true ∨ info2.completed = true
      · simp only [fire_task, hg2, if_pos hguard] at hfired'
        exact Or.inl hfired'
      · simp only [fire_task, hg2, if_neg hguard] at hfired'
        rcases List.mem_append.mp hfired' with h2 | h2
        · exact Or.inl h2
        · have he : tok = tok' := List.mem_singleton.mp h2
          subst he
          push_neg at hguard
          exact Or.inr ⟨info2, hg2,
            by simpa using hguard.1, by simpa using hguard.2⟩

theorem run_timer_steps_no_cancelled_fire (steps : List TimerStep)
    (s : TimerServiceState) (tok : Nat) (info : TaskInfo)
    (hget : dictGet tok s.tasks = some info) (hc : info.cancelled = true)
    (hfired : tok ∈ (run_timer_steps s steps).fired) : tok ∈ s.fired := by
  induction steps generalizing s info with
  | nil => exact hfired
  | cons stp rest ih =>
    obtain ⟨info', hget', hc'⟩ := timer_step_cancelled_preserved s stp tok info hget hc
    have h2 : tok ∈ (timer_step s stp).fired := ih (timer_step s stp) info' hget' hc' hfired
    rcases timer_step_fired_mono s stp tok h2 with h | ⟨info2, hg2, hcf, _⟩
    · exact h
    · rw [hget] at hg2
      cases hg2
      rw [hc] at hcf
      exact absurd hcf (by simp)

/-- C5 counterexample — `start_timer` completes (the request is queued), then
`cancel_timer("T")` is called before the timer fires: it returns `False`
(the dispatcher has not registered the timer yet), and after the dispatcher
runs the timer still fires its callback. -/
theorem c5_counterexample :
    (cancel_timer (start_timer initTimerService ⟨"T", 5⟩) "T").1 = false ∧
    (run_timer_steps (cancel_timer (start_timer initTimerService ⟨"T", 5⟩) "T").2
      [TimerStep.dispatch, TimerStep.fire 0]).fired = [0] := by
  decide

/-- C5 (amended) — the guarantee holds once the start request has been
*dispatched*: if the timer id is registered (so `cancel_timer` returns
`True`) and its task has not yet completed, then after the cancellation the
task's callback never runs, whatever happens next.  A `cancel_timer` that
races the dispatcher (request still queued) returns `False` and prevents
nothing. -/
theorem c5_amended_cancel_prevents_fire (s : TimerServiceState) (tid : String)
    (tok : Nat) (info : TaskInfo) (steps : List TimerStep)
    (htok : dictGet tid s.timers = some tok)
    (hinfo : dictGet tok s.tasks = some info)
    (hnotdone : info.completed = false) :
    (cancel_timer s tid).1 = true ∧
    (tok ∈ (run_timer_steps (cancel_timer s tid).2 steps).fired → tok ∈ s.fired) := by
  constructor
  · simp [cancel_timer, htok, hinfo, hnotdone]
  · intro hf
    have hset : dictGet tok (cancel_timer s tid).2.tasks =
        some { info with cancelled := true } := by
      simp [cancel_timer, htok, hinfo, hnotdone, dictGet_dictSet]
    have hmem := run_timer_steps_no_cancelled_fire steps (cancel_timer s tid).2 tok
      { info with cancelled := true } hset rfl hf
    rwa [cancel_timer_fired] at hmem

/-! ## Engine scenario claims -/

/-- Sequencing helper for `Except` used to chain engine runs. -/
def bindE {α β : Type} (x : Except String α) (f : α → Except String β) : Except String β :=
  match x with
  | .ok a => f a
  | .error e => .error e

theorem dictGet_dictSet_isSome {α β : Type} [DecidableEq α] (k q : α) (v : β)
    (l : List (α × β)) (h : (dictGet q l).isSome = true) :
    (dictGet q (dictSet k v l)).isSome = true := by
  rw [dictGet_dictSet]
  by_cases hq : q = k <;> simp [hq, h]

/-- C7 (amended) — an exception raised by a condition's `evaluate()` during
propagation is not caught anywhere in `_propagate_state_update`: the whole
propagation pass aborts with that exception (it escapes out of
`on_device_event`), and the conditions still on the work queue are never
processed. -/
theorem c7_amended_eval_error_escapes (fuel : Nat) (heap : Heap) (st : EngineState)
    (current : ConditionNotifier) (rest : List ConditionNotifier)
    (touched : List String) (msg : String) (pair : ConditionNotifier × Bool)
    (hlook : dictGet (cond_identifier (heap_node heap current.condId).obj)
      st.conditions = some pair)
    (heval : cond_evaluate (heap_node heap current.condId).obj = .error msg) :
    propagate_state_update (fuel + 1) heap st (current :: rest) touched = .error msg := by
  simp only [propagate_state_update, hlook, heval]

/-- Static condition whose `evaluate` raises: ordering against `None`. -/
def c7_e : StaticCond := ⟨123, "temp", ">", .int 70, .none⟩

/-- Second condition tracking the same device, which should also be processed
by the propagation pass. -/
def c7_other : StaticCond := ⟨123, "temp", "=", .str "x", .none⟩

def c7_heap : Heap :=
  [(1, ⟨.staticAttr c7_e, Option.none, Option.none⟩),
   (2, ⟨.staticAttr c7_other, Option.none, Option.none⟩)]

def c7_client : Int → List (String × AttrValue) := fun _ => [("temp", .int 50)]

/-- Both conditions registered, then a device event delivering `value = None`
(a device attribute going missing) arrives for the shared device. -/
def c7_run : Except String (Heap × EngineState × List EngineEffect) :=
  bindE (add_condition 20 c7_heap emptyEngine c7_client ⟨1, some 10, Option.none⟩) (fun r =>
  bindE (add_condition 20 r.1 r.2.1 c7_client ⟨2, some 20, Option.none⟩) (fun r2 =>
  on_device_event 20 r2.1 r2.2.1 ⟨123, "temp", .none⟩))

/-- C7 counterexample — a condition whose `evaluate()` raises during
propagation is *not* treated as false with propagation continuing: the
`TypeError` escapes the entire `on_device_event` dispatch (no try/except in
`_propagate_state_update`). -/
theorem c7_counterexample :
    c7_run = .error "TypeError: unsupported comparison" := rfl

def c7w_cond : StaticCond := ⟨123, "temp", ">", .int 70, AttrValue.none⟩

def c7w_heap : Heap := [(1, ⟨.staticAttr c7w_cond, Option.none, Option.none⟩)]

def c7w_st : EngineState :=
  ⟨[(static_identifier c7w_cond, ⟨1, Option.none, Option.none⟩, false)], [], []⟩

/-- Witness for `c7_amended_eval_error_escapes`: the tracked condition at the
head of the work queue evaluates `None > 70`. -/
theorem c7_amended_witness :
    propagate_state_update 5 c7w_heap c7w_st [⟨1, Option.none, Option.none⟩] [] =
      .error "TypeError: unsupported comparison" :=
  c7_amended_eval_error_escapes 4 c7w_heap c7w_st ⟨1, Option.none, Option.none⟩ [] []
    "TypeError: unsupported comparison" (⟨1, Option.none, Option.none⟩, false) rfl rfl

theorem propagate_next_state_deps (st : EngineState) (cur : ConditionNotifier)
    (cid : String) (ns cs : Bool) :
    (propagate_next_state st cur cid ns cs).condition_deps = st.condition_deps := by
  unfold propagate_next_state
  split <;> rfl

theorem propagate_next_state_tracked (st : EngineState) (cur : ConditionNotifier)
    (cid : String) (ns cs : Bool) (p : String)
    (h : (dictGet p st.conditions).isSome = true) :
    (dictGet p (propagate_next_state st cur cid ns cs).conditions).isSome = true := by
  unfold propagate_next_state
  split
  · exact dictGet_dictSet_isSome _ _ _ _ h
  · exact h

theorem notify_parents_log_mem (st : EngineState) (cid : String) (ns : Bool) (p : String)
    (hdeps : p ∈ (dictGet cid st.condition_deps).getD [])
    (htracked : (dictGet p st.conditions).isSome = true) :
    EngineEffect.condEvent p cid ns ∈ notify_parents_log st cid ns := by
  unfold notify_parents_log
  apply List.mem_filterMap.mpr
  refine ⟨p, hdeps, ?_⟩
  obtain ⟨v, hv⟩ := Option.isSome_iff_exists.mp htracked
  simp [hv]

/-- C2 (amended) — within one propagation pass, every tracked parent of a
child in the propagation frontier receives an `on_condition_event` call for
that child, and the call carries the child's current `evaluate()` result
`b` — the exact boolean, not merely some value.  The call is made whether or
not the child's state changed: nothing in the hypotheses requires a state
change (the accompanying counterexample shows the call happening for a child
whose state did not change). -/
theorem c2_amended_parent_notified (fuel : Nat) :
    ∀ (heap : Heap) (st : EngineState) (work : List ConditionNotifier)
      (touched : List String) (res : PropagateResult) (n : ConditionNotifier)
      (p : String) (b : Bool),
    propagate_state_update fuel heap st work touched = .ok res →
    n ∈ work →
    cond_evaluate (heap_node heap n.condId).obj = .ok b →
    p ∈ (dictGet (cond_identifier (heap_node heap n.condId).obj) st.condition_deps).getD [] →
    (dictGet p st.conditions).isSome = true →
    EngineEffect.condEvent p (cond_identifier (heap_node heap n.condId).obj) b ∈
      res.log := by
  induction fuel with
  | zero =>
    intro heap st work touched res n p b h _ _ _ _
    simp [propagate_state_update] at h
  | succ fuel ih =>
    intro heap st work touched res n p b h hmem hev hdeps htracked
    cases work with
    | nil => cases hmem
    | cons current rest =>
      simp only [propagate_state_update] at h
      cases hlook : dictGet (cond_identifier (heap_node heap current.condId).obj)
          st.conditions with
      | none =>
        simp only [hlook] at h
        exact Except.noConfusion h
      | some pair =>
        obtain ⟨nt, current_state⟩ := pair
        simp only [hlook] at h
        cases heval : cond_evaluate (heap_node heap current.condId).obj with
        | error e =>
          simp only [heval] at h
          exact Except.noConfusion h
        | ok new_state =>
          simp only [heval] at h
          cases hrec : propagate_state_update fuel heap
              (propagate_next_state st current
                (cond_identifier (heap_node heap current.condId).obj)
                new_state current_state)
              (rest ++ parents_work
                (propagate_next_state st current
                  (cond_identifier (heap_node heap current.condId).obj)
                  new_state current_state)
                (cond_identifier (heap_node heap current.condId).obj))
              (setAdd (cond_identifier (heap_node heap current.condId).obj) touched) with
          | error e =>
            simp only [hrec] at h
            exact Except.noConfusion h
          | ok r =>
            simp only [hrec] at h
            cases h
            show _ ∈ notify_parents_log
              (propagate_next_state st current
                (cond_identifier (heap_node heap current.condId).obj)
                new_state current_state)
              (cond_identifier (heap_node heap current.condId).obj) new_state ++ r.log
            rcases List.mem_cons.mp hmem with rfl | hn
            · rw [hev] at heval
              injection heval with hb
              subst hb
              refine List.mem_append_left _ ?_
              apply notify_parents_log_mem
              · rw [propagate_next_state_deps]
                exact hdeps
              · exact propagate_next_state_tracked _ _ _ _ _ _ htracked
            · exact List.mem_append_right _
                (ih heap _ _ _ r n p b hrec (List.mem_append_left _ hn) hev
                  (by rw [propagate_next_state_deps]; exact hdeps)
                  (propagate_next_state_tracked _ _ _ _ _ _ htracked))
/-- Projections of an engine run, with inert defaults for the error case
(the accompanying `runOk` conjunct rules the error case out). -/
def runOk {α : Type} (r : Except String α) : Bool :=
  match r with
  | .ok _ => true
  | .error _ => false

def runStateOf (r : Except String (Heap × EngineState × List EngineEffect)) : EngineState :=
  match r with
  | .ok x => x.2.1
  | .error _ => emptyEngine

def runLogOf (r : Except String (Heap × EngineState × List EngineEffect)) :
    List EngineEffect :=
  match r with
  | .ok x => x.2.2
  | .error _ => []

set_option maxRecDepth 100000

/-- Debounced child condition of the C1 scenario: `switch == True` with a
duration (debounce) of 60 seconds. -/
def c1_child : StaticCond := ⟨123, "switch", "=", .bool true, .none⟩

/-- Parent of the C1 scenario: `Or(child)`. -/
def c1_parent : BoolCond := ⟨"or", [(static_identifier c1_child, 1, false)]⟩

def c1_heap : Heap :=
  [(1, ⟨.staticAttr c1_child, Option.none, some 60⟩),
   (2, ⟨.boolean c1_parent, Option.none, Option.none⟩)]

def c1_client : Int → List (String × AttrValue) := fun _ => [("switch", .str "off")]

/-- Register the parent (which recursively registers the debounced child),
then deliver the device event that makes the child's predicate true. -/
def c1_run : Except String (Heap × EngineState × List EngineEffect) :=
  bindE (add_condition 20 c1_heap emptyEngine c1_client ⟨2, some 20, Option.none⟩)
    (fun r => on_device_event 20 r.1 r.2.1 ⟨123, "switch", .str "on"⟩)

/-- C1 — in `rules/engine.py` there is no `DURATION_PENDING` masking: the
moment the debounced child's predicate becomes true (with its 60-second
duration elapsed for 0 seconds — the effect log shows the pass starts no
timer and fires no event), the engine already reports the child as true to
every observer: the parent receives `on_condition_event(child, True)` during
the very same propagation pass, and `get_condition_state` returns true.  The
claimed invariant (a pending condition appears false, parents are told false
until the duration elapses) is violated by this code. -/
theorem c1_pending_child_observed_true :
    runOk c1_run = true ∧
    runLogOf c1_run =
      [EngineEffect.condEvent (bool_identifier c1_parent)
        (static_identifier c1_child) true] ∧
    get_condition_state (runStateOf c1_run) (static_identifier c1_child) = .ok true :=
  ⟨rfl, rfl, rfl⟩

/-- Plain child condition of the C2 counterexample (no duration). -/
def c2_child : StaticCond := ⟨123, "switch", "=", .bool true, .none⟩

def c2_parent : BoolCond := ⟨"or", [(static_identifier c2_child, 1, false)]⟩

def c2_heap : Heap :=
  [(1, ⟨.staticAttr c2_child, Option.none, Option.none⟩),
   (2, ⟨.boolean c2_parent, Option.none, Option.none⟩)]

def c2_client : Int → List (String × AttrValue) := fun _ => [("switch", .str "off")]

/-- Register the parent (child added recursively), then deliver an event that
leaves the child's state unchanged (`switch` stays effectively off). -/
def c2_run : Except String (Heap × EngineState × List EngineEffect) :=
  bindE (add_condition 20 c2_heap emptyEngine c2_client ⟨2, some 20, Option.none⟩)
    (fun r => on_device_event 20 r.1 r.2.1 ⟨123, "switch", .str "off"⟩)

/-- C2 counterexample — the child's state does *not* change during the pass
(it is false at registration and still false afterwards, as the final state
shows), yet its parent receives an `on_condition_event` call for it: the
dependency loop notifies parents on every processing of a child, not only on
state changes. -/
theorem c2_counterexample :
    runOk c2_run = true ∧
    runLogOf c2_run =
      [EngineEffect.condEvent (bool_identifier c2_parent)
        (static_identifier c2_child) false] ∧
    dictGet (static_identifier c2_child) (runStateOf c2_run).conditions =
      some (⟨1, Option.none, Option.none⟩, false) :=
  ⟨rfl, rfl, rfl⟩

def c2w_child : StaticCond := ⟨123, "switch", "=", .bool true, .bool false⟩

def c2w_parent : BoolCond := ⟨"or", [(static_identifier c2w_child, 1, false)]⟩

def c2w_heap : Heap :=
  [(1, ⟨.staticAttr c2w_child, Option.none, Option.none⟩),
   (2, ⟨.boolean c2w_parent, Option.none, Option.none⟩)]

def c2w_st : EngineState :=
  ⟨[(static_identifier c2w_child, ⟨1, Option.none, Option.none⟩, false),
    (bool_identifier c2w_parent, ⟨2, some 20, Option.none⟩, false)],
   [(static_identifier c2w_child, [bool_identifier c2w_parent])],
   [(123, [static_identifier c2w_child])]⟩

/-- Propagation run used by the C2 witness. -/
def c2w_res : PropagateResult :=
  match propagate_state_update 5 c2w_heap c2w_st [⟨1, Option.none, Option.none⟩] [] with
  | .ok r => r
  | .error _ => ⟨emptyEngine, [], []⟩

/-- Witness for `c2_amended_parent_notified`: the frontier child evaluates to
false (its state does not change), and its tracked parent receives the
notification carrying exactly that boolean. -/
theorem c2_amended_witness :
    EngineEffect.condEvent (bool_identifier c2w_parent)
      (cond_identifier (heap_node c2w_heap
        (ConditionNotifier.mk 1 Option.none Option.none).condId).obj) false ∈
      c2w_res.log :=
  c2_amended_parent_notified 5 c2w_heap c2w_st [⟨1, Option.none, Option.none⟩] []
    c2w_res ⟨1, Option.none, Option.none⟩ (bool_identifier c2w_parent) false rfl
    (List.mem_singleton.mpr rfl) rfl (List.mem_singleton.mpr rfl) rfl

/-- The syntactically identical condition of the C4 scenario, instantiated as
two distinct objects (heap ids 1 and 2). -/
def c4_static : StaticCond := ⟨123, "switch", "=", .bool true, .none⟩

def c4_heap : Heap :=
  [(1, ⟨.staticAttr c4_static, Option.none, Option.none⟩),
   (2, ⟨.staticAttr c4_static, Option.none, Option.none⟩)]

def c4_client : Int → List (String × AttrValue) := fun _ => [("switch", .str "off")]

/-- Add both objects, each with its own notifier (event tags 10 and 20). -/
def c4_run : Except String (Heap × EngineState × List EngineEffect) :=
  bindE (add_condition 20 c4_heap emptyEngine c4_client ⟨1, some 10, Option.none⟩)
    (fun r => add_condition 20 r.1 r.2.1 c4_client ⟨2, some 20, Option.none⟩)

/-- C4 — the registry of `rules/engine.py` is keyed by the derived
`identifier` *string*, not by a process-unique per-instance id: after adding
two separately constructed but syntactically identical conditions, the
registry holds a single entry, and it carries the second notifier (event
tag 20) — the second add overwrote the first condition's entry entirely. -/
theorem c4_identifier_collision :
    runOk c4_run = true ∧
    runStateOf c4_run =
      ⟨[(static_identifier c4_static, ⟨2, some 20, Option.none⟩, false)],
       [], [(123, [static_identifier c4_static])]⟩ :=
  ⟨rfl, rfl⟩

/-- Debounced condition of the C6 scenario (duration 5 s, processed first). -/
def c6_d : StaticCond := ⟨123, "switch", "=", .bool true, .none⟩

/-- Plain condition of the C6 scenario (no duration, timeout 30 s), which
becomes true in the same event and should fire. -/
def c6_s : StaticCond := ⟨123, "switch", "!=", .bool false, .none⟩

def c6_heap : Heap :=
  [(1, ⟨.staticAttr c6_d, Option.none, some 5⟩),
   (2, ⟨.staticAttr c6_s, some 30, Option.none⟩)]

def c6_client : Int → List (String × AttrValue) := fun _ => [("switch", .str "off")]

/-- Register both conditions (both initially false), then deliver the event
that turns both true at once. -/
def c6_run : Except String (Heap × EngineState × List EngineEffect) :=
  bindE (add_condition 20 c6_heap emptyEngine c6_client ⟨1, some 10, Option.none⟩) (fun r =>
  bindE (add_condition 20 r.1 r.2.1 c6_client ⟨2, some 20, some 21⟩) (fun r2 =>
  on_device_event 20 r2.1 r2.2.1 ⟨123, "switch", .str "on"⟩))

/-- C6 — the post-propagation pass produces an *empty* effect log for this
event: the first touched condition took the FALSE→true-with-duration branch,
whose `start_timer` call is never awaited (so not even the duration timer is
started) and whose `return` abandons the loop, so the second touched
condition — a FALSE→TRUE transition without duration — is never handled: its
fire event (tag 20) is not signalled, its timeout timer is not cancelled, and
it stays in the registry with state true. -/
theorem c6_early_return_skips_touched :
    runOk c6_run = true ∧
    runLogOf c6_run = [] ∧
    dictGet (static_identifier c6_s) (runStateOf c6_run).conditions =
      some (⟨2, some 20, some 21⟩, true) ∧
    dictGet (static_identifier c6_d) (runStateOf c6_run).conditions =
      some (⟨1, some 10, Option.none⟩, true) :=
  ⟨rfl, rfl, rfl, rfl⟩

/-- State reached by `start_timer("T", ...)` followed by one dispatcher
iteration: the timer is registered under token 0. -/
def c5w_state : TimerServiceState :=
  run_timer_steps initTimerService [TimerStep.start ⟨"T", 5⟩, TimerStep.dispatch]

/-- Witness for `c5_amended_cancel_prevents_fire` at the concrete registered
timer `"T"`. -/
theorem c5_amended_witness :
    (cancel_timer c5w_state "T").1 = true ∧
    (0 ∈ (run_timer_steps (cancel_timer c5w_state "T").2 [TimerStep.fire 0]).fired →
      0 ∈ c5w_state.fired) :=
  c5_amended_cancel_prevents_fire c5w_state "T" 0 ⟨"T", false, false⟩
    [TimerStep.fire 0] rfl rfl rfl

end HubitatRules
